import Mathlib

/-!
Verification development for the tg2twi forwarding bridge (src/tg2twi.py).

Strings are modelled as `List Char`; Python string primitives
(`str.replace` with empty replacement, `str.strip`, slicing `s[:k]`
with possibly negative `k`) are embedded below, and the transformer,
dispatcher, publisher and retry wrapper of the source are translated
on top of them.
-/

set_option maxRecDepth 20000

namespace Tg2Twi

/-- `MAX_TWEET_LENGTH = 280` (src/tg2twi.py line 34). -/
def MAX_TWEET_LENGTH : Nat := 280

/-- Python whitespace test used by `str.strip()` (ASCII whitespace). -/
def pyIsSpace (c : Char) : Bool :=
  c = ' ' || c = Char.ofNat 9 || c = Char.ofNat 10 ||
  c = Char.ofNat 13 || c = Char.ofNat 11 || c = Char.ofNat 12

/-- Python `s.strip()`: drop leading and trailing whitespace. -/
def pyStrip (s : List Char) : List Char :=
  ((s.dropWhile pyIsSpace).reverse.dropWhile pyIsSpace).reverse

/-- Python slice `s[:k]` for an arbitrary integer `k`: for `k ≥ 0` the
first `k` characters, for `k < 0` all but the last `-k` characters
(clamped at the empty string). -/
def pySliceTo (s : List Char) (k : Int) : List Char :=
  if 0 ≤ k then s.take k.toNat else s.take (s.length - (-k).toNat)

/-- Fuelled core of Python `s.replace(pat, "")`: scan left to right,
delete each non-overlapping occurrence of `pat`.  One unit of fuel is
spent per scanned position, so fuel `s.length` always suffices. -/
def replaceAllFuel (pat : List Char) : Nat → List Char → List Char
  | _, [] => []
  | 0, s => s
  | fuel + 1, c :: rest =>
    if pat.isPrefixOf (c :: rest) then
      replaceAllFuel pat fuel (List.drop pat.length (c :: rest))
    else
      c :: replaceAllFuel pat fuel rest

/-- Python `s.replace(pat, "")`. -/
def replaceAll (pat s : List Char) : List Char :=
  replaceAllFuel pat s.length s

/-- `telegram_post_link = f"https://t.me/{channel}/{post_id}"`
(src/tg2twi.py line 74). -/
def telegramPostLink (channel : List Char) (post_id : Nat) : List Char :=
  "https://t.me/".toList ++ channel ++ '/' :: (Nat.repr post_id).toList

/-- `allowed_text_length = MAX_TWEET_LENGTH - (len(link) + 5)`
(src/tg2twi.py lines 75-76); an integer, possibly negative. -/
def allowedLen (channel : List Char) (post_id : Nat) : Int :=
  (MAX_TWEET_LENGTH : Int) - ((telegramPostLink channel post_id).length + 5)

/-- `clean_text = text.replace(f"@{channel}", "").strip()`
(src/tg2twi.py line 79). -/
def cleanText (channel text : List Char) : List Char :=
  pyStrip (replaceAll ('@' :: channel) text)

/-- The body of the tweet after optional truncation
(src/tg2twi.py lines 82-83): if the cleaned text is longer than the
allowed length down to `clean_text[:allowed - 1] + "…"`. -/
def tweetBody (channel : List Char) (post_id : Nat) (text : List Char) : List Char :=
  if ((cleanText channel text).length : Int) > allowedLen channel post_id then
    pySliceTo (cleanText channel text) (allowedLen channel post_id - 1) ++ ['…']
  else
    cleanText channel text

/-- `tweet_text = f"{clean_text}\n\n{telegram_post_link}"`
(src/tg2twi.py line 86). -/
def tweetText (channel : List Char) (post_id : Nat) (text : List Char) : List Char :=
  tweetBody channel post_id text ++ '\n' :: '\n' :: telegramPostLink channel post_id

/-- Modelled from the spec: "Strip every literal occurrence of the
channel's own mention token (`@channel_name`) from `raw_text`" —
spec-side removal, structured as splitting on the mention token and
joining the pieces (fuelled like `replaceAllFuel`). -/
def splitOnFuel (pat : List Char) : Nat → List Char → List (List Char)
  | _, [] => [[]]
  | 0, s => [s]
  | fuel + 1, c :: rest =>
    if pat.isPrefixOf (c :: rest) then
      [] :: splitOnFuel pat fuel (List.drop pat.length (c :: rest))
    else
      match splitOnFuel pat fuel rest with
      | [] => [[c]]
      | g :: gs => (c :: g) :: gs

/-- Modelled from the spec: the raw text with every occurrence of the
mention token deleted — the join of the mention-delimited pieces. -/
def spec_removeMention (channel text : List Char) : List Char :=
  (splitOnFuel ('@' :: channel) text.length text).flatten

/-- Modelled from the spec: mention removal followed by trimming of
leading and trailing whitespace. -/
def spec_cleanText (channel text : List Char) : List Char :=
  pyStrip (spec_removeMention channel text)

/-! ## Publisher and dispatcher (src/tg2twi.py lines 71-108) -/

/-- A Python exception value (classification is irrelevant here). -/
structure PyExc where
  msg : List Char
deriving DecidableEq

/-- `update.channel_post`: an optional text body and a message id. -/
structure ChannelPost where
  text : Option (List Char)
  message_id : Nat
deriving DecidableEq

/-- An inbound update: an optional channel post. -/
structure Update where
  channel_post : Option ChannelPost
deriving DecidableEq

/-- What `handle_new_message` did with one update. -/
inductive Outcome
  | skippedWarning
  | posted (tweet : List Char)
  | caughtError (e : PyExc)
deriving DecidableEq

/-- `post_to_twitter(text, post_id)` (src/tg2twi.py lines 71-92): build
the tweet, call the external API (the oracle `create_tweet`); on API
failure the exception is logged and re-raised. -/
def post_to_twitter (create_tweet : List Char → Except PyExc Unit)
    (channel : List Char) (text : List Char) (post_id : Nat) :
    Except PyExc (List Char) :=
  match create_tweet (tweetText channel post_id text) with
  | Except.ok _ => Except.ok (tweetText channel post_id text)
  | Except.error e => Except.error e

/-- Python truthiness of `update.channel_post.text`: falsy when absent
or the empty string. -/
def textFalsy : Option (List Char) → Bool
  | none => true
  | some [] => true
  | some (_ :: _) => false

/-- The body of `handle_new_message`'s `try` block (src/tg2twi.py lines
98-106): validate, then publish.  Second component counts calls of the
posting API.  The body can raise (propagating a publish failure). -/
def handle_body (create_tweet : List Char → Except PyExc Unit)
    (channel : List Char) (u : Update) : Except PyExc Outcome × Nat :=
  match u.channel_post with
  | none => (Except.ok Outcome.skippedWarning, 0)
  | some cp =>
    match cp.text with
    | none => (Except.ok Outcome.skippedWarning, 0)
    | some [] => (Except.ok Outcome.skippedWarning, 0)
    | some (c :: cs) =>
      match post_to_twitter create_tweet channel (c :: cs) cp.message_id with
      | Except.ok tw => (Except.ok (Outcome.posted tw), 1)
      | Except.error e => (Except.error e, 1)

/-- `handle_new_message` (src/tg2twi.py lines 96-108): the `try` body
wrapped in `except Exception: log` — a caught exception is logged at
error level and the handler returns normally. -/
def handle_new_message (create_tweet : List Char → Except PyExc Unit)
    (channel : List Char) (u : Update) : Except PyExc Outcome × Nat :=
  match handle_body create_tweet channel u with
  | (Except.ok o, n) => (Except.ok o, n)
  | (Except.error e, n) => (Except.ok (Outcome.caughtError e), n)

/-! ## Retry wrapper (src/tg2twi.py lines 114-120) -/

/-- Exceptions raised by the update fetch: the transient network error
class, or anything else. -/
inductive TgError
  | networkError (msg : List Char)
  | otherError (msg : List Char)
deriving DecidableEq

/-- Result of the retry-wrapped fetch, carrying the total number of
underlying calls made. -/
inductive RetryResult (α : Type)
  | ok (a : α) (calls : Nat)
  | raised (e : TgError) (calls : Nat)
  | retryExhausted (last : TgError) (calls : Nat)
deriving DecidableEq

/-- Total number of underlying fetch calls recorded in a result. -/
def RetryResult.calls {α : Type} : RetryResult α → Nat
  | RetryResult.ok _ n => n
  | RetryResult.raised _ n => n
  | RetryResult.retryExhausted _ n => n

/-- The tenacity retry loop: `rem` attempts remain, `made` calls were
made so far; `fetch k` is the result of the `k`-th underlying call.
On success stop; on a network error retry while attempts remain (after
the last allowed attempt tenacity raises its retry-exhausted error); on
any other exception propagate immediately. -/
def tenacityGo {α : Type} (fetch : Nat → Except TgError α) :
    Nat → Nat → RetryResult α
  | 0, made => RetryResult.retryExhausted (TgError.networkError []) made
  | rem + 1, made =>
    match fetch made with
    | Except.ok a => RetryResult.ok a (made + 1)
    | Except.error (TgError.networkError m) =>
      if rem = 0 then RetryResult.retryExhausted (TgError.networkError m) (made + 1)
      else tenacityGo fetch rem (made + 1)
    | Except.error (TgError.otherError m) =>
      RetryResult.raised (TgError.otherError m) (made + 1)

/-- `get_updates_with_retry` (src/tg2twi.py lines 114-120):
`stop_after_attempt(5)`, `retry_if_exception_type(NetworkError)`. -/
def get_updates_with_retry {α : Type} (fetch : Nat → Except TgError α) :
    RetryResult α :=
  tenacityGo fetch 5 0

/-! ## Control flow of `main` (src/tg2twi.py lines 123-163) -/

/-- Primitive operations `main` and its nested `polling_loop` can
perform. -/
inductive MainOp
  | startHealthThread
  | buildApplication
  | addMessageHandler
  | addErrorHandler
  | runPolling
  | callGetUpdatesWithRetry
  | processUpdate
  | logError
  | sleep (seconds : Nat)
deriving DecidableEq

/-- One iteration of the nested `polling_loop` (src/tg2twi.py lines
140-148): it would call `get_updates_with_retry`, then process each
update, or log and sleep on failure. -/
def polling_loop_iteration (fetchOk : Bool) (numUpdates : Nat) : List MainOp :=
  MainOp.callGetUpdatesWithRetry ::
    (if fetchOk then List.replicate numUpdates MainOp.processUpdate
     else [MainOp.logError, MainOp.sleep 5])

/-- One iteration of `main`'s `while True` loop (src/tg2twi.py lines
130-157): build the application, register handlers, run
`application.run_polling`; `polling_loop` is defined but never called,
so no `callGetUpdatesWithRetry` operation is performed.  On an escaping
exception, log and sleep 5. -/
def main_iteration (pollFails : Bool) : List MainOp :=
  [MainOp.buildApplication, MainOp.addMessageHandler,
   MainOp.addErrorHandler, MainOp.runPolling] ++
    (if pollFails then [MainOp.logError, MainOp.sleep 5] else [])

/-- The trace of `main` over finitely many supervisor-loop iterations:
start the health-check thread, then iterate. -/
def main_trace (iters : List Bool) : List MainOp :=
  MainOp.startHealthThread :: (iters.map main_iteration).flatten

/-! ## Concrete inputs used by counterexamples and witnesses -/

/-- A pathological channel name: 260 copies of `a`; its post link is
275 characters long, so `allowedLen` is `0`. -/
def longChannel : List Char := List.replicate 260 'a'

/-- Fetch behaviour for the retry scenario: a transient network error
on the first three calls, success from the fourth on. -/
def fetchScenario : Nat → Except TgError Nat := fun k =>
  if k < 3 then Except.error (TgError.networkError ['n']) else Except.ok 0

/-! ## Helper lemmas -/

lemma splitOnFuel_ne_nil (pat : List Char) (fuel : Nat) (s : List Char) :
    splitOnFuel pat fuel s ≠ [] := by
  cases fuel with
  | zero => cases s <;> simp [splitOnFuel]
  | succ n =>
    cases s with
    | nil => simp [splitOnFuel]
    | cons c rest =>
      simp only [splitOnFuel]
      split
      · simp
      · split <;> simp

lemma splitOnFuel_flatten (pat : List Char) :
    ∀ (fuel : Nat) (s : List Char),
      (splitOnFuel pat fuel s).flatten = replaceAllFuel pat fuel s := by
  intro fuel
  induction fuel with
  | zero => intro s; cases s <;> simp [splitOnFuel, replaceAllFuel]
  | succ n ih =>
    intro s
    cases s with
    | nil => simp [splitOnFuel, replaceAllFuel]
    | cons c rest =>
      simp only [splitOnFuel, replaceAllFuel]
      split
      · simpa using ih _
      · cases h : splitOnFuel pat n rest with
        | nil => exact absurd h (splitOnFuel_ne_nil pat n rest)
        | cons g gs =>
          have hth := ih rest
          rw [h] at hth
          rw [← hth]
          simp

lemma tenacityGo_net_step {α : Type} (fetch : Nat → Except TgError α)
    (n made : Nat) (m : List Char)
    (h : fetch made = Except.error (TgError.networkError m)) (hn : n ≠ 0) :
    tenacityGo fetch (n + 1) made = tenacityGo fetch n (made + 1) := by
  simp only [tenacityGo, h]
  rw [if_neg hn]

lemma tenacityGo_net_exhaust {α : Type} (fetch : Nat → Except TgError α)
    (made : Nat) (m : List Char)
    (h : fetch made = Except.error (TgError.networkError m)) :
    tenacityGo fetch (0 + 1) made
      = RetryResult.retryExhausted (TgError.networkError m) (made + 1) := by
  simp [tenacityGo, h]

lemma tenacityGo_other_step {α : Type} (fetch : Nat → Except TgError α)
    (n made : Nat) (m : List Char)
    (h : fetch made = Except.error (TgError.otherError m)) :
    tenacityGo fetch (n + 1) made
      = RetryResult.raised (TgError.otherError m) (made + 1) := by
  simp only [tenacityGo, h]

lemma tenacityGo_ok_step {α : Type} (fetch : Nat → Except TgError α)
    (n made : Nat) (a : α) (h : fetch made = Except.ok a) :
    tenacityGo fetch (n + 1) made = RetryResult.ok a (made + 1) := by
  simp only [tenacityGo, h]

lemma tenacityGo_calls_le {α : Type} (fetch : Nat → Except TgError α) :
    ∀ (rem made : Nat), (tenacityGo fetch rem made).calls ≤ made + rem := by
  intro rem
  induction rem with
  | zero => intro made; simp [tenacityGo, RetryResult.calls]
  | succ n ih =>
    intro made
    cases h : fetch made with
    | ok a =>
      rw [tenacityGo_ok_step fetch n made a h]
      simp only [RetryResult.calls]
      omega
    | error e =>
      cases e with
      | networkError m =>
        by_cases hn : n = 0
        · subst hn
          rw [tenacityGo_net_exhaust fetch made m h]
          simp only [RetryResult.calls]
          omega
        · rw [tenacityGo_net_step fetch n made m h hn]
          have := ih (made + 1)
          omega
      | otherError m =>
        rw [tenacityGo_other_step fetch n made m h]
        simp only [RetryResult.calls]
        omega

lemma tenacityGo_prev_network {α : Type} (fetch : Nat → Except TgError α) :
    ∀ (rem made k : Nat), made ≤ k → k + 1 < (tenacityGo fetch rem made).calls →
      ∃ m, fetch k = Except.error (TgError.networkError m) := by
  intro rem
  induction rem with
  | zero =>
    intro made k hmk hlt
    simp [tenacityGo, RetryResult.calls] at hlt
    exfalso; omega
  | succ n ih =>
    intro made k hmk hlt
    cases h : fetch made with
    | ok a =>
      rw [tenacityGo_ok_step fetch n made a h] at hlt
      simp only [RetryResult.calls] at hlt
      exfalso; omega
    | error e =>
      cases e with
      | networkError m =>
        by_cases hn : n = 0
        · subst hn
          rw [tenacityGo_net_exhaust fetch made m h] at hlt
          simp only [RetryResult.calls] at hlt
          exfalso; omega
        · rw [tenacityGo_net_step fetch n made m h hn] at hlt
          rcases Nat.lt_or_ge k (made + 1) with hk | hk
          · have hkm : k = made := by omega
            exact ⟨m, hkm ▸ h⟩
          · exact ih (made + 1) k hk hlt
      | otherError m =>
        rw [tenacityGo_other_step fetch n made m h] at hlt
        simp only [RetryResult.calls] at hlt
        exfalso; omega

lemma main_iteration_no_retry_call (b : Bool) :
    MainOp.callGetUpdatesWithRetry ∉ main_iteration b := by
  cases b <;> decide

/-! ## Claim theorems -/

/-- C1 (counterexample): with the 260-character channel name the post
link is 275 characters, `allowedLen = 0`, and the outbound text for the
4-character raw text `abcd` is 281 characters long — the claimed bound
of `MAX_TWEET_LENGTH = 280` fails. -/
theorem tweet_length_le_max_cx :
    ¬ (tweetText longChannel 1 ("abcd".toList)).length ≤ MAX_TWEET_LENGTH := by
  decide

/-- C1 (amended): whenever `allowedLen channel post_id ≥ 1` (the
reference link plus its 5-unit buffer leaves at least one character of
body budget), the full outbound text built in `post_to_twitter` —
cleaned/truncated body, two newlines, reference link — has length at
most `MAX_TWEET_LENGTH = 280`. -/
theorem tweet_length_le_max (channel : List Char) (post_id : Nat) (text : List Char)
    (h : 1 ≤ allowedLen channel post_id) :
    (tweetText channel post_id text).length ≤ MAX_TWEET_LENGTH := by
  have hA : (MAX_TWEET_LENGTH : Int)
      = allowedLen channel post_id + ((telegramPostLink channel post_id).length + 5) := by
    unfold allowedLen
    ring
  unfold tweetText tweetBody
  split
  · rename_i hgt
    rw [pySliceTo, if_pos (by omega)]
    simp only [List.length_append, List.length_take, List.length_cons, List.length_nil]
    omega
  · rename_i hle
    simp only [List.length_append, List.length_cons]
    omega

/-- C1 (witness). -/
theorem tweet_length_le_max_witness :
    1 ≤ allowedLen ("mychannel".toList) 42 ∧
      (tweetText ("mychannel".toList) 42 ("Hello @mychannel world".toList)).length
        ≤ MAX_TWEET_LENGTH :=
  ⟨by decide, tweet_length_le_max _ _ _ (by decide)⟩

/-- C2 (counterexample): with the 260-character channel name,
`allowedLen = 0` is non-negative and the cleaned text `abcd` is longer
than it, yet the output body has length 4, not `allowedLen = 0` — the
claimed exact truncation fails at `allowedLen = 0`. -/
theorem truncated_body_cx :
    0 ≤ allowedLen longChannel 1 ∧
      allowedLen longChannel 1 < ((cleanText longChannel ("abcd".toList)).length : Int) ∧
      ¬ ((tweetBody longChannel 1 ("abcd".toList)).length : Int)
          = allowedLen longChannel 1 := by
  decide

/-- C2 (amended): whenever `allowedLen channel post_id ≥ 1` (rather
than merely non-negative) and the cleaned text is longer than it, the
output body has length exactly `allowedLen` and its last character is
the ellipsis glyph. -/
theorem truncated_body_exact (channel : List Char) (post_id : Nat) (text : List Char)
    (h1 : 1 ≤ allowedLen channel post_id)
    (h2 : allowedLen channel post_id < ((cleanText channel text).length : Int)) :
    ((tweetBody channel post_id text).length : Int) = allowedLen channel post_id ∧
      (tweetBody channel post_id text).getLast? = some '…' := by
  unfold tweetBody
  split
  · constructor
    · rw [pySliceTo, if_pos (by omega)]
      simp only [List.length_append, List.length_take, List.length_cons,
        List.length_nil]
      omega
    · simp
  · rename_i hle
    exfalso
    omega

/-- C2 (witness). -/
theorem truncated_body_exact_witness :
    ((tweetBody ("mychannel".toList) 42 (List.replicate 300 'b')).length : Int)
        = allowedLen ("mychannel".toList) 42 ∧
      (tweetBody ("mychannel".toList) 42 (List.replicate 300 'b')).getLast?
        = some '…' :=
  truncated_body_exact _ _ _ (by decide) (by decide)

/-- C3: the retry-wrapped fetch makes at most 5 underlying calls; every
call before the last one failed with the transient `NetworkError` (so a
retry happens only on that error type, and calling stops at the first
success or the first other exception); and in the scenario where the
first three calls raise `NetworkError` and the fourth succeeds, exactly
4 calls are made and the result is the fetched value, no error. -/
theorem retry_policy (α : Type) (fetch : Nat → Except TgError α) :
    (get_updates_with_retry fetch).calls ≤ 5 ∧
      (∀ k, k + 1 < (get_updates_with_retry fetch).calls →
        ∃ m, fetch k = Except.error (TgError.networkError m)) ∧
      (∀ u : α, (∀ k, k < 3 → ∃ m, fetch k = Except.error (TgError.networkError m)) →
        fetch 3 = Except.ok u →
        get_updates_with_retry fetch = RetryResult.ok u 4) := by
  refine ⟨?_, ?_, ?_⟩
  · simpa [get_updates_with_retry] using tenacityGo_calls_le fetch 5 0
  · intro k hk
    exact tenacityGo_prev_network fetch 5 0 k (Nat.zero_le k) hk
  · intro u hnet hok
    obtain ⟨m0, h0⟩ := hnet 0 (by omega)
    obtain ⟨m1, h1⟩ := hnet 1 (by omega)
    obtain ⟨m2, h2⟩ := hnet 2 (by omega)
    calc get_updates_with_retry fetch
        = tenacityGo fetch 5 0 := rfl
      _ = tenacityGo fetch 4 1 := tenacityGo_net_step fetch 4 0 m0 h0 (by omega)
      _ = tenacityGo fetch 3 2 := tenacityGo_net_step fetch 3 1 m1 h1 (by omega)
      _ = tenacityGo fetch 2 3 := tenacityGo_net_step fetch 2 2 m2 h2 (by omega)
      _ = RetryResult.ok u 4 := tenacityGo_ok_step fetch 1 3 u hok

/-- C3 (witness). -/
theorem retry_policy_witness :
    get_updates_with_retry fetchScenario = RetryResult.ok 0 4 ∧
      (get_updates_with_retry fetchScenario).calls ≤ 5 :=
  ⟨(retry_policy Nat fetchScenario).2.2 0
      (by
        intro k hk
        exact ⟨['n'], by simp [fetchScenario, hk]⟩)
      (by rfl),
    (retry_policy Nat fetchScenario).1⟩

/-- C4: on every execution of `main`, the trace never performs a
`get_updates_with_retry` call (the nested `polling_loop`, which would
perform one on every iteration, is defined but never started): every
iteration runs `application.run_polling` instead, so the bounded-retry
fetch logic is dead code. -/
theorem retry_fetch_dead_code :
    (∀ iters : List Bool, MainOp.callGetUpdatesWithRetry ∉ main_trace iters) ∧
      (∀ b : Bool, MainOp.runPolling ∈ main_iteration b) ∧
      (∀ (b : Bool) (n : Nat),
        MainOp.callGetUpdatesWithRetry ∈ polling_loop_iteration b n) := by
  refine ⟨?_, ?_, ?_⟩
  · intro iters hmem
    simp only [main_trace, List.mem_cons, List.mem_flatten, List.mem_map] at hmem
    rcases hmem with h | ⟨s, ⟨b, _, rfl⟩, hs⟩
    · exact absurd h (by decide)
    · exact main_iteration_no_retry_call b hs
  · intro b
    cases b <;> decide
  · intro b n
    simp [polling_loop_iteration]

/-- C5: `handle_new_message` never raises to its caller: for every
update and every behaviour of the posting API (including one that
raises on the publish), the dispatcher returns normally — the exception
is caught inside it. -/
theorem handler_never_raises (create_tweet : List Char → Except PyExc Unit)
    (channel : List Char) (u : Update) :
    ∃ o : Outcome, (handle_new_message create_tweet channel u).1 = Except.ok o := by
  unfold handle_new_message
  rcases h : handle_body create_tweet channel u with ⟨r, n⟩
  cases r with
  | ok o => exact ⟨o, rfl⟩
  | error e => exact ⟨Outcome.caughtError e, rfl⟩

/-- C6: the cleaned text used by the transformer equals the raw text
with every occurrence of the mention token `@channel_name` removed
(spec-side split-and-join formulation, exact character match hence
case-sensitive) followed by whitespace trimming, and the transformer's
length comparison against the allowed length is performed on exactly
this cleaned text. -/
theorem clean_strip_before_length (channel : List Char) (post_id : Nat)
    (text : List Char) :
    cleanText channel text = spec_cleanText channel text ∧
      tweetBody channel post_id text =
        (if ((spec_cleanText channel text).length : Int) > allowedLen channel post_id
         then pySliceTo (spec_cleanText channel text) (allowedLen channel post_id - 1)
                ++ ['…']
         else spec_cleanText channel text) := by
  have h : cleanText channel text = spec_cleanText channel text := by
    unfold cleanText spec_cleanText replaceAll spec_removeMention
    rw [splitOnFuel_flatten]
  refine ⟨h, ?_⟩
  unfold tweetBody
  rw [h]

/-- C7: when the cleaned text fits in the allowed length, the output
body is the cleaned text verbatim — no truncation, no ellipsis. -/
theorem short_body_verbatim (channel : List Char) (post_id : Nat) (text : List Char)
    (h : ((cleanText channel text).length : Int) ≤ allowedLen channel post_id) :
    tweetBody channel post_id text = cleanText channel text := by
  unfold tweetBody
  rw [if_neg (by omega)]

/-- C7 (witness). -/
theorem short_body_verbatim_witness :
    ((cleanText ("mychannel".toList) ("hi there".toList)).length : Int)
        ≤ allowedLen ("mychannel".toList) 7 ∧
      tweetBody ("mychannel".toList) 7 ("hi there".toList)
        = cleanText ("mychannel".toList) ("hi there".toList) :=
  ⟨by decide, short_body_verbatim _ _ _ (by decide)⟩

/-- C8: the concrete scenario: raw text `Hello @mychannel world`,
channel `mychannel`, post id 42 — the cleaned text is `Hello  world`
(double space left by mention removal) and the outbound text is exactly
that body, two newlines, and `https://t.me/mychannel/42`. -/
theorem scenario_hello_mychannel :
    cleanText ("mychannel".toList) ("Hello @mychannel world".toList)
        = ("Hello  world".toList) ∧
      tweetText ("mychannel".toList) 42 ("Hello @mychannel world".toList)
        = ("Hello  world\n\nhttps://t.me/mychannel/42".toList) := by
  decide

/-- C9: an update with no channel post, or whose channel post has a
falsy text body, makes the dispatcher return normally with the
skipped-warning outcome and zero posting-API calls. -/
theorem no_text_skips_publisher (create_tweet : List Char → Except PyExc Unit)
    (channel : List Char) (u : Update)
    (h : u.channel_post = none ∨
      ∃ cp, u.channel_post = some cp ∧ textFalsy cp.text = true) :
    handle_new_message create_tweet channel u
      = (Except.ok Outcome.skippedWarning, 0) := by
  unfold handle_new_message handle_body
  rcases h with h | ⟨cp, hcp, hf⟩
  · rw [h]
  · rw [hcp]
    rcases cp with ⟨t, mid⟩
    cases t with
    | none => rfl
    | some l =>
      cases l with
      | nil => rfl
      | cons c cs => simp [textFalsy] at hf

/-- C9 (witness). -/
theorem no_text_skips_publisher_witness :
    handle_new_message (fun _ => Except.ok ()) [] (Update.mk none)
      = (Except.ok Outcome.skippedWarning, 0) :=
  no_text_skips_publisher _ _ _ (Or.inl rfl)

/-- C10: mention removal is substring-based, not token-based: with
channel `mychannel`, the raw text `@mychannelextra` (a longer handle of
which the mention is a proper prefix) has its embedded mention deleted
and the remainder `extra` is left as the output body. -/
theorem mention_substring_removal :
    tweetBody ("mychannel".toList) 42 ("@mychannelextra".toList)
      = ("extra".toList) := by
  decide

end Tg2Twi
